import Mathlib

/-!
Verification development for the chatbot-llm repository.

This file embeds, as Lean definitions, the parts of the repository that the
checked claims refer to:

* `src/teams_bot/bot/conversation_state.py` — the `ConversationState` enum;
* `src/teams_bot/bot/conversation_data.py`  — the `ConversationData` dataclass
  with its checkpoint/restore, `to_dict`/`from_dict` serialization and the
  `transitions`-based state machine configuration;
* `src/teams_bot/bot/state_manager.py`      — `StateManager.encrypt`/`decrypt`;
* `src/clpm.py`                             — the subprocess-invocation table,
  the `SecurityIssue` record with `to_ontology_triples`, and the
  `SafetyScanner`/`PipAuditScanner` `scan_package` methods.

External libraries (Fernet, `json`, the `transitions` dispatch loop,
`jsonschema`, `rdflib`) are modelled explicitly where their behaviour is
relevant: ciphers and scanner-output parsers appear as function parameters
with their documented guarantees as hypotheses, and an executable
serializer/deserializer pair stands in for `json.dumps`/`json.loads` of the
wrapped sensitive values.
-/

namespace ChatbotLLM

/-! ## `ConversationState` (src/teams_bot/bot/conversation_state.py)

The Python enum has nine members; for every member the `name` equals the
`value` string. -/

inductive ConversationState where
  | IDLE
  | AUTHENTICATING
  | QUERYING
  | PROCESSING
  | RESPONDING
  | ERROR
  | COMPLETED
  | INITIALIZED
  | AUTHENTICATED
deriving DecidableEq, Repr

/-- The member list in declaration order; models `list(ConversationState)`,
which `ConversationData._initialize_state_machine` passes to the machine as
its state set. -/
def conversationStates : List ConversationState :=
  [.IDLE, .AUTHENTICATING, .QUERYING, .PROCESSING, .RESPONDING,
   .ERROR, .COMPLETED, .INITIALIZED, .AUTHENTICATED]

/-- `member.value` (equal to `member.name` for this enum). -/
def stateValue : ConversationState → String
  | .IDLE => "IDLE"
  | .AUTHENTICATING => "AUTHENTICATING"
  | .QUERYING => "QUERYING"
  | .PROCESSING => "PROCESSING"
  | .RESPONDING => "RESPONDING"
  | .ERROR => "ERROR"
  | .COMPLETED => "COMPLETED"
  | .INITIALIZED => "INITIALIZED"
  | .AUTHENTICATED => "AUTHENTICATED"

/-- `ConversationState(s)`: enum lookup by value; `none` models the
`ValueError` the Python constructor raises on an unknown value. -/
def stateOfValue (s : String) : Option ConversationState :=
  if s = "IDLE" then some .IDLE
  else if s = "AUTHENTICATING" then some .AUTHENTICATING
  else if s = "QUERYING" then some .QUERYING
  else if s = "PROCESSING" then some .PROCESSING
  else if s = "RESPONDING" then some .RESPONDING
  else if s = "ERROR" then some .ERROR
  else if s = "COMPLETED" then some .COMPLETED
  else if s = "INITIALIZED" then some .INITIALIZED
  else if s = "AUTHENTICATED" then some .AUTHENTICATED
  else none

/-! ## `StateManager.encrypt` / `StateManager.decrypt`
(src/teams_bot/bot/state_manager.py, lines 61-122)

The constructor reads `STATE_ENCRYPTION_KEY`; when the key is the empty
string, `self._fernet` is `None` and both methods pass values through.
The Fernet cipher together with the base64 wrapping is external code; it is
modelled as a pair of functions.  `dec` returns `Option` because
`Fernet.decrypt`/`b64decode` raise on malformed input; the `decrypt` method
catches that and returns the input unchanged. -/

structure FernetCipher where
  /-- `base64.b64encode(self._fernet.encrypt(value.encode())).decode()` -/
  enc : String → String
  /-- `self._fernet.decrypt(base64.b64decode(value.encode())).decode()`;
  `none` models a raised exception. -/
  dec : String → Option String

structure StateManager where
  /-- `self._fernet`: `some` iff `STATE_ENCRYPTION_KEY` was non-empty. -/
  fernet : Option FernetCipher

def StateManager.encrypt (sm : StateManager) (value : String) : String :=
  match sm.fernet with
  | none => value
  | some f => f.enc value

def StateManager.decrypt (sm : StateManager) (value : String) : String :=
  match sm.fernet with
  | none => value
  | some f =>
    match f.dec value with
    | some plain => plain
    | none => value

/-! ## JSON value wrapping (src/teams_bot/bot/conversation_data.py)

`to_dict` stores each non-`None` sensitive field as
`encrypt(json.dumps({"value": value}))` and `from_dict` recovers it with
`json.loads(decrypt(...)).get("value")`.  The values flowing through this
wrapper are the sensitive fields: strings (`active_query`, `last_response`,
`last_message_id`) and the `conversation_references` dict (modelled with
string values).  `json.dumps`/`json.loads` are Python stdlib; they are
modelled by an executable injective encoder and its parser, proved to be a
left inverse — the only properties of the stdlib pair that the code relies
on.  The encoder always produces a non-empty string, as real `json.dumps`
does. -/

inductive WireVal where
  | wstr (s : String)
  | wdict (d : List (String × String))
deriving DecidableEq, Repr

/-- Length-prefixed (unary) encoding of one string. -/
def encStrC (s : String) : List Char :=
  List.replicate s.length 'u' ++ ':' :: s.data

/-- Decode one length-prefixed string, returning it and the remaining
characters. -/
def decStrC (cs : List Char) : Option (String × List Char) :=
  let n := (cs.takeWhile (fun c => c == 'u')).length
  match cs.dropWhile (fun c => c == 'u') with
  | ':' :: rest =>
    if n ≤ rest.length then some (String.mk (rest.take n), rest.drop n) else none
  | _ => none

/-- Encoding of an association list as a sequence of key/value strings. -/
def encPairsC : List (String × String) → List Char
  | [] => []
  | (k, v) :: rest => encStrC k ++ encStrC v ++ encPairsC rest

/-- Decode `n` key/value pairs. -/
def decPairsC : Nat → List Char → Option (List (String × String) × List Char)
  | 0, cs => some ([], cs)
  | n + 1, cs =>
    match decStrC cs with
    | none => none
    | some (k, cs1) =>
      match decStrC cs1 with
      | none => none
      | some (v, cs2) =>
        match decPairsC n cs2 with
        | none => none
        | some (d, cs3) => some ((k, v) :: d, cs3)

/-- Models `json.dumps({"value": v})`. -/
def jsonDumpsValue : WireVal → String
  | .wstr s => String.mk ('S' :: encStrC s)
  | .wdict d =>
    String.mk ('D' :: (List.replicate d.length 'e' ++ ';' :: encPairsC d))

/-- Models `json.loads(s).get("value")`; `none` models a raised
`json.JSONDecodeError` (or a payload without the expected shape). -/
def jsonLoadsValue (s : String) : Option WireVal :=
  match s.data with
  | 'S' :: rest =>
    match decStrC rest with
    | some (v, []) => some (.wstr v)
    | _ => none
  | 'D' :: rest =>
    let n := (rest.takeWhile (fun c => c == 'e')).length
    match rest.dropWhile (fun c => c == 'e') with
    | ';' :: rest2 =>
      match decPairsC n rest2 with
      | some (d, []) => some (.wdict d)
      | _ => none
    | _ => none
  | _ => none

/-! ## `ConversationData` (src/teams_bot/bot/conversation_data.py)

The dataclass, with the `_machine` and `_lock` bookkeeping fields omitted
(the machine is modelled separately as `dispatch` below) and
`conversation_references : Dict[str, Any]` modelled with string values.
`checkpoint_data` holds the dict built by `create_checkpoint`; `none`
models Python `None` and also the falsy empty dict, which
`restore_checkpoint` treats identically (`if not self.checkpoint_data`). -/

/-- One `state_history` entry as appended by `_after_state_change`. -/
structure HistEntry where
  state : String
  timestamp : String
  trigger : String
deriving DecidableEq, Repr

/-- The dict assembled by `create_checkpoint`. -/
structure Checkpoint where
  current_state : String
  conversation_references : List (String × String)
  active_query : Option String
  last_response : Option String
  error_count : Nat
  last_activity : String
  state_history : List HistEntry
  last_message_id : Option String
deriving DecidableEq, Repr

structure ConversationData where
  conversation_id : String
  current_state : ConversationState
  last_message_id : Option String
  active_query : Option String
  last_response : Option String
  conversation_references : List (String × String)
  last_activity : String
  state_history : List HistEntry
  checkpoint_data : Option Checkpoint
  checkpoint_timestamp : Option String
  error_count : Nat
  state_manager : Option StateManager

/-- `ConversationData(conversation_id=..., current_state=...)` with all other
fields left at their dataclass defaults; `now` stands for
`datetime.utcnow().isoformat()` (the `last_activity` default).  `none` models
the `ValueError` that `__post_init__` raises on an empty `conversation_id`. -/
def mkConversationData (conversation_id : String) (now : String)
    (current_state : ConversationState := .INITIALIZED) :
    Option ConversationData :=
  if conversation_id = "" then none
  else some
    { conversation_id := conversation_id
      current_state := current_state
      last_message_id := none
      active_query := none
      last_response := none
      conversation_references := []
      last_activity := now
      state_history := []
      checkpoint_data := none
      checkpoint_timestamp := none
      error_count := 0
      state_manager := none }

/-- `create_checkpoint` (lines 154-167); `timestamp` stands for
`datetime.utcnow().isoformat()`. -/
def ConversationData.create_checkpoint (d : ConversationData)
    (timestamp : String) : ConversationData :=
  { d with
    checkpoint_data := some
      { current_state := stateValue d.current_state
        conversation_references := d.conversation_references
        active_query := d.active_query
        last_response := d.last_response
        error_count := d.error_count
        last_activity := d.last_activity
        state_history := d.state_history
        last_message_id := d.last_message_id }
    checkpoint_timestamp := some timestamp }

/-- `restore_checkpoint` (lines 169-186): returns the boolean result paired
with the updated object.  The `ConversationState(...)` lookup is the first
statement of the `try` block, so when it raises, the object is returned
unchanged and the method returns `False`. -/
def ConversationData.restore_checkpoint (d : ConversationData) :
    Bool × ConversationData :=
  match d.checkpoint_data with
  | none => (false, d)
  | some c =>
    match stateOfValue c.current_state with
    | none => (false, d)
    | some st =>
      (true,
       { d with
         current_state := st
         conversation_references := c.conversation_references
         active_query := c.active_query
         last_response := c.last_response
         error_count := c.error_count
         last_activity := c.last_activity
         state_history := c.state_history
         last_message_id := c.last_message_id })

/-! ### `to_dict` / `from_dict` (lines 188-272)

The produced Python dict has fixed keys; the four sensitive entries are
dynamically typed (`None`, an encrypted string, or — without a state
manager — the raw value, with `conversation_references` serialized as a
dict).  `PyVal` models those dynamic values together with Python
truthiness. -/

inductive PyVal where
  | vnone
  | vstr (s : String)
  | vdict (d : List (String × String))
deriving DecidableEq, Repr

/-- Python truthiness of a sensitive entry (`if field in data and data[field]`). -/
def PyVal.truthy : PyVal → Bool
  | .vnone => false
  | .vstr s => s ≠ ""
  | .vdict d => d ≠ []

/-- The dict returned by `to_dict`. -/
structure SerializedData where
  conversation_id : String
  current_state : String
  last_activity : String
  last_checkpoint_timestamp : Option String
  error_count : Nat
  state_history : List HistEntry
  active_query : PyVal
  last_response : PyVal
  conversation_references : PyVal
  last_message_id : PyVal
deriving Repr

/-- The per-field body of the encryption loop in `to_dict`: `None` stays
`None`; any other value is wrapped, dumped and encrypted.  (`encrypt` is
total here, matching the claim hypothesis that encryption does not raise.) -/
def encryptField (sm : StateManager) : Option WireVal → PyVal
  | none => .vnone
  | some w => .vstr (sm.encrypt (jsonDumpsValue w))

def ConversationData.to_dict (d : ConversationData) : SerializedData :=
  let base : SerializedData :=
    { conversation_id := d.conversation_id
      current_state := stateValue d.current_state
      last_activity := d.last_activity
      last_checkpoint_timestamp := d.checkpoint_timestamp
      error_count := d.error_count
      state_history := d.state_history
      active_query := .vnone
      last_response := .vnone
      conversation_references := .vnone
      last_message_id := .vnone }
  match d.state_manager with
  | some sm =>
    { base with
      active_query := encryptField sm (d.active_query.map .wstr)
      last_response := encryptField sm (d.last_response.map .wstr)
      conversation_references :=
        encryptField sm (some (.wdict d.conversation_references))
      last_message_id := encryptField sm (d.last_message_id.map .wstr) }
  | none =>
    { base with
      active_query := match d.active_query with
        | none => .vnone
        | some s => .vstr s
      last_response := match d.last_response with
        | none => .vnone
        | some s => .vstr s
      -- Empty dict when no state manager (line 224)
      conversation_references := .vdict []
      last_message_id := match d.last_message_id with
        | none => .vnone
        | some s => .vstr s }

/-- The per-field body of the decryption loop in `from_dict` for the three
string-valued sensitive fields: falsy entries become `None`; otherwise the
entry is decrypted, parsed and unwrapped, any failure yielding `None`.
Python's untyped `setattr` could also store a decrypted dict in a string
field; the typed model maps that (never produced by `to_dict`) case to
`None` as well. -/
def decryptStrField (sm : StateManager) (v : PyVal) : Option String :=
  match v with
  | .vstr s =>
    if s = "" then none
    else
      match jsonLoadsValue (sm.decrypt s) with
      | some (.wstr t) => some t
      | _ => none
  | _ => none

/-- The same loop body for `conversation_references`.  A truthy non-string
entry makes `json.loads` raise, which the `except` turns into `None`;
the typed field models that degenerate value as the empty dict. -/
def decryptDictField (sm : StateManager) (v : PyVal) : List (String × String) :=
  match v with
  | .vstr s =>
    if s = "" then []
    else
      match jsonLoadsValue (sm.decrypt s) with
      | some (.wdict refs) => refs
      | _ => []
  | _ => []

/-- `from_dict` (lines 230-272).  `none` models an exception escaping the
classmethod: the `ConversationState(...)` `ValueError` on an unknown state
string, or `__post_init__`'s `ValueError` on an empty `conversation_id`. -/
def ConversationData.from_dict (data : SerializedData)
    (state_manager : Option StateManager) (now : String) :
    Option ConversationData :=
  match stateOfValue data.current_state with
  | none => none
  | some st =>
    match mkConversationData data.conversation_id now st with
    | none => none
    | some inst0 =>
      let inst :=
        { inst0 with
          state_manager := state_manager
          last_activity := data.last_activity
          checkpoint_timestamp := data.last_checkpoint_timestamp
          error_count := data.error_count
          state_history := data.state_history }
      match state_manager with
      | some sm =>
        some { inst with
          active_query := decryptStrField sm data.active_query
          last_response := decryptStrField sm data.last_response
          conversation_references :=
            decryptDictField sm data.conversation_references
          last_message_id := decryptStrField sm data.last_message_id }
      | none =>
        some { inst with
          active_query := match data.active_query with
            | .vstr s => some s
            | _ => none
          last_response := match data.last_response with
            | .vstr s => some s
            | _ => none
          -- Empty dict when no state manager (line 269)
          conversation_references := []
          last_message_id := match data.last_message_id with
            | .vstr s => some s
            | _ => none }

/-! ## The state machine (lines 58-147)

`_initialize_state_machine` configures an `AsyncMachine` with six triggers.
The machine's events are exactly those six names, so `Trigger` is an
inductive of them.  The dispatch pipeline of the `transitions` library is
external; it is modelled by the library's event-processing order:
`Event._trigger` first checks `_is_valid_source` — when the event has no
transition from the current state it raises `MachineError` right there,
before `_process` has run any machine-level `prepare_event` callback.  The
repo's `_before_event` (with its own validity check and `error_count`
increment) therefore only ever runs for triggers that are valid from the
current state, where its check passes; on the invalid-trigger path it never
fires and the object is left untouched.  For a valid trigger the callbacks
then run in their documented order: `prepare_event` (`_before_event`),
`before_state_change` (`_before_state_change`) and transition-specific
`before` callbacks, the state change, then the `after` callbacks
(`_after_state_change`, registered both per-transition and machine-wide;
its history append is idempotent, so the double registration adds one
entry).  Locking and queuing are sequentialized away. -/

inductive Trigger where
  | start_auth
  | auth_complete
  | start_query
  | query_complete
  | error
  | reset
deriving DecidableEq, Repr

def triggerName : Trigger → String
  | .start_auth => "start_auth"
  | .auth_complete => "auth_complete"
  | .start_query => "start_query"
  | .query_complete => "query_complete"
  | .error => "error"
  | .reset => "reset"

/-- A transition source: a named state or the `"*"` wildcard. -/
inductive SourcePat where
  | st (s : ConversationState)
  | any
deriving DecidableEq, Repr

def SourcePat.matches : SourcePat → ConversationState → Bool
  | .st s, s' => s = s'
  | .any, _ => true

/-- The `transitions` list passed to `AsyncMachine` (lines 64-102):
trigger, source, destination. -/
def machineTransitions : List (Trigger × SourcePat × ConversationState) :=
  [ (.start_auth, .st .INITIALIZED, .AUTHENTICATING),
    (.auth_complete, .st .AUTHENTICATING, .AUTHENTICATED),
    (.start_query, .st .AUTHENTICATED, .QUERYING),
    (.query_complete, .st .QUERYING, .AUTHENTICATED),
    (.error, .any, .ERROR),
    (.reset, .any, .INITIALIZED) ]

/-- `machine.get_triggers(state)`: the triggers with a transition whose
source matches the state. -/
def getTriggers (s : ConversationState) : List Trigger :=
  (machineTransitions.filter (fun e => e.2.1.matches s)).map (fun e => e.1)

/-- Outcome of dispatching a trigger: normal completion, or a raised
`MachineError`; both carry the object state afterwards. -/
inductive DispatchResult where
  | ok (d : ConversationData)
  | machineError (d : ConversationData)

/-- Dispatching one trigger on the model, with `now` standing for
`datetime.utcnow().isoformat()` in the callbacks.

* Library validity check (`Event._trigger` / `_is_valid_source`): a trigger
  with no transition from the current state raises `MachineError` before any
  callback — in particular before `prepare_event` — runs, so `_before_event`
  never fires and the object is unchanged.
* `_before_event` (prepare, lines 119-131): runs only on the valid path,
  where its `get_triggers` membership check passes and it mutates nothing.
* `_before_state_change`: `last_activity = now` (lines 133-135).
* `_handle_reset` (`before` of the `reset` transition): clear `error_count`
  and `state_history` (lines 149-152).
* state change, then `_after_state_change`: append a history entry unless
  the last entry already names the new state, and set `current_state`
  (lines 137-147). -/
def ConversationData.dispatch (d : ConversationData) (trig : Trigger)
    (now : String) : DispatchResult :=
  match machineTransitions.find?
      (fun e => e.1 = trig ∧ e.2.1.matches d.current_state) with
  | none => .machineError d
  | some e =>
    let dest := e.2.2
    let d1 := { d with last_activity := now }
    let d2 :=
      if trig = .reset then { d1 with error_count := 0, state_history := [] }
      else d1
    let appendEntry :=
      match d2.state_history.getLast? with
      | none => true
      | some last => last.state ≠ stateValue dest
    .ok { d2 with
      current_state := dest
      state_history :=
        if appendEntry then
          d2.state_history ++
            [{ state := stateValue dest, timestamp := now,
               trigger := triggerName trig }]
        else d2.state_history }

/-! ## clpm: subprocess invocations (src/clpm.py)

`clpm.py` declares three timeout constants (lines 43-46) and performs seven
`subprocess.run` invocations.  The table below transcribes each call site
with the `timeout=` argument it passes (`none` when the call passes no
timeout at all). -/

def AVAILABILITY_CHECK_TIMEOUT : Nat := 5
def SCAN_TIMEOUT : Nat := 30
def PACKAGE_INSTALL_TIMEOUT : Nat := 300

structure SubprocessCall where
  /-- The call site, by class, method and command. -/
  site : String
  /-- The `timeout=` keyword argument in seconds; `none` when absent. -/
  timeout : Option Nat
deriving DecidableEq, Repr

/-- Every `subprocess.run` invocation in `src/clpm.py`, in file order.
The scan calls pass the literal `30` (lines 330 and 502), not the
`SCAN_TIMEOUT` constant; the installs in `PackageManager.add_package` pass
`PACKAGE_INSTALL_TIMEOUT` (lines 1041 and 1064); the two availability checks
(lines 296 and 472) and the install inside `SafetyScanner.add_package`
(line 444) pass no timeout. -/
def clpmSubprocessCalls : List SubprocessCall :=
  [ { site := "SafetyScanner.is_available: safety --version", timeout := none },
    { site := "SafetyScanner.scan_package: safety scan", timeout := some 30 },
    { site := "SafetyScanner.add_package: conda/pip install", timeout := none },
    { site := "PipAuditScanner.is_available: pip-audit --version",
      timeout := none },
    { site := "PipAuditScanner.scan_package: pip-audit", timeout := some 30 },
    { site := "PackageManager.add_package: conda install",
      timeout := some PACKAGE_INSTALL_TIMEOUT },
    { site := "PackageManager.add_package: pip install",
      timeout := some PACKAGE_INSTALL_TIMEOUT } ]

/-! ## clpm: `SecurityIssue` (src/clpm.py, lines 109-267)

`cvss_score` is a Python float; it is only ever stored and order-compared,
so it is modelled as a rational. -/

structure SecurityIssue where
  cve_id : String
  description : String
  severity : String
  affected_versions : String
  fixed_version : Option String
  source : String
  cvss_score : Option ℚ := none
  mitigation_status : Option String := none
deriving DecidableEq, Repr

/-! ## clpm: scanner output processing (lines 286-587)

`subprocess.run` and `json.loads` are external; a scan run is modelled by
its observable outcome (`timedOut` for `subprocess.TimeoutExpired`, or the
captured stdout), and the JSON parse of scanner output by a function
parameter returning `none` for `json.JSONDecodeError`.  `jsonschema`
validation of a vulnerability record is abstracted by a `schema_valid`
field. -/

inductive RunOutcome where
  | timedOut
  | completed (stdout : String)

/-- One entry of the `vulnerabilities` array in safety's JSON output, with
the fields `from_safety_json` reads.  `Option` models both a missing key and
an explicit `null`. -/
structure SafetyVuln where
  CVE : Option String
  vulnerability_id : Option String
  advisory : Option String
  severity : Option String
  vulnerable_spec : List String
  fixed_versions : Option (List (Option String))
  cvss_score : Option ℚ
  mitigation : Option String
  /-- Abstracts `jsonschema.validate` against
  `schemas/security_vulnerability.json` (with `package_name` added). -/
  schema_valid : Bool

/-- The parsed top-level safety JSON object. -/
structure SafetyData where
  vulnerabilities : List SafetyVuln

/-- Exceptions that repo code raises and catches around issue construction. -/
inductive PyExc where
  | validationError
  | indexError
deriving DecidableEq, Repr

/-- `SecurityIssue.from_safety_json` (lines 141-167).  Raises
`ValidationError` when schema validation fails; `data.get("fixed_versions",
[None])[0]` raises `IndexError` when the key holds an empty list. -/
def fromSafetyJson (v : SafetyVuln) : Except PyExc SecurityIssue :=
  if ¬ v.schema_valid then .error .validationError
  else
    match v.fixed_versions.getD [Option.none] with
    | [] => .error .indexError
    | fv :: _ => .ok
      { cve_id :=
          -- data.get("CVE") or data.get("vulnerability_id", "Unknown")
          match v.CVE with
          | some c => if c = "" then v.vulnerability_id.getD "Unknown" else c
          | none => v.vulnerability_id.getD "Unknown"
        description := v.advisory.getD "No description available"
        severity := v.severity.getD "Unknown"
        affected_versions := String.intercalate ", " v.vulnerable_spec
        fixed_version := fv
        source := "safety"
        cvss_score := v.cvss_score
        mitigation_status := v.mitigation }

/-- The `for vuln in vulnerabilities` loop of `SafetyScanner.scan_package`:
`ValidationError` is caught and the loop continues; any other exception
propagates to the outer handler. -/
def collectSafetyIssues : List SafetyVuln → Except PyExc (List SecurityIssue)
  | [] => .ok []
  | v :: rest =>
    match fromSafetyJson v with
    | .ok issue => (collectSafetyIssues rest).map (fun is => issue :: is)
    | .error .validationError => collectSafetyIssues rest
    | .error e => .error e

/-- Python `needle in hay` for strings. -/
def strContains (hay needle : String) : Bool :=
  (hay.splitOn needle).length != 1

/-- `SafetyScanner.scan_package` (lines 301-386).  `parse` models
`json.loads` on the first JSON-looking stdout line.  All exception paths —
`TimeoutExpired`, `JSONDecodeError`, and anything reaching the outer
`except Exception` — return the empty list. -/
def safetyScanPackage (parse : String → Option SafetyData)
    (r : RunOutcome) : List SecurityIssue :=
  match r with
  | .timedOut => []
  | .completed stdout =>
    if strContains stdout "Please login or register Safety CLI" then []
    else
      -- json_lines: stdout lines whose stripped form starts with a brace
      match (stdout.splitOn "\n").filter (fun l => l.trim.startsWith "\x7b") with
      | [] => []
      | l :: _ =>
        match parse l with
        | none => []
        | some data =>
          match collectSafetyIssues data.vulnerabilities with
          | .ok issues => issues
          | .error _ => []

/-- One finding in pip-audit's new (list) output format, with the fields the
scanner loop reads. -/
structure PAFinding where
  id : Option String
  description : Option String
  severity : Option String
  affected : Option String
  fix_versions : Option (List String)
  cvss_score : Option ℚ

/-- One entry of pip-audit's new-format output list. -/
structure PAEntry where
  name : String
  vulns : List PAFinding

/-- One vulnerability record in pip-audit's old (`dependencies`) format,
with the fields `from_pip_audit_json` reads. -/
structure PAVuln where
  id : Option String
  description : Option String
  severity : Option String
  affected_versions : List String
  fixed_version : Option String
  cvss_score : Option ℚ
  /-- Abstracts `jsonschema.validate`. -/
  schema_valid : Bool

structure PADep where
  name : String
  vulnerabilities : List PAVuln

/-- The two output shapes `PipAuditScanner.scan_package` recognises, plus
any other well-formed JSON (which yields no issues). -/
inductive PipAuditData where
  | listFormat (entries : List PAEntry)
  | depsFormat (dependencies : List PADep)
  | otherFormat

/-- New-format issue construction (lines 525-539).
`finding.get("fix_versions", [""])[0]` raises `IndexError` on an explicit
empty list; the surrounding `except Exception: continue` drops the finding. -/
def mkPipAuditIssueNew (f : PAFinding) : Option SecurityIssue :=
  match f.fix_versions.getD [""] with
  | [] => none
  | fv :: _ => some
    { cve_id := f.id.getD "Unknown"
      description := f.description.getD "No description"
      severity := f.severity.getD "Unknown"
      affected_versions := f.affected.getD ""
      fixed_version := some fv
      source := "pip-audit"
      cvss_score := f.cvss_score
      mitigation_status := none }

/-- `SecurityIssue.from_pip_audit_json` (lines 169-197); only schema
validation can raise here. -/
def fromPipAuditJson (v : PAVuln) : Except PyExc SecurityIssue :=
  if ¬ v.schema_valid then .error .validationError
  else .ok
    { cve_id := v.id.getD "Unknown"
      description := v.description.getD "No description available"
      severity := v.severity.getD "Unknown"
      affected_versions := String.intercalate ", " v.affected_versions
      fixed_version := v.fixed_version
      source := "pip-audit"
      cvss_score := v.cvss_score
      mitigation_status := none }

/-- `PipAuditScanner.scan_package` (lines 477-587). -/
def pipAuditScanPackage (parse : String → Option PipAuditData)
    (package : String) (r : RunOutcome) : List SecurityIssue :=
  match r with
  | .timedOut => []
  | .completed stdout =>
    if stdout.trim = "" then []
    else
      match parse stdout with
      | none => []
      | some (.listFormat entries) =>
        (entries.filter (fun e => e.name = package)).flatMap
          (fun e => e.vulns.filterMap mkPipAuditIssueNew)
      | some (.depsFormat deps) =>
        (deps.filter (fun dep => dep.name = package)).flatMap
          (fun dep =>
            dep.vulnerabilities.filterMap
              (fun v => (fromPipAuditJson v).toOption))
      | some .otherFormat => []

/-! ## clpm: the RDF graph and `SecurityIssue.to_ontology_triples`
(lines 199-267)

An `rdflib.Graph` is a set of triples; it is modelled as a duplicate-free
list in iteration order.  Nodes are URI references, string literals, or
numeric literals (the CVSS score).  `graph.remove((s, p, None))` removes
every triple with that subject and predicate; the `existing_data` dict is
captured from the graph as it stands on entry, keeping the last object per
predicate, which `lookupLast` reproduces. -/

inductive RNode where
  | uri (s : String)
  | lit (s : String)
  | litQ (q : ℚ)
deriving DecidableEq, Repr

abbrev Triple := RNode × RNode × RNode

abbrev RGraph := List Triple

/-- `graph.add(t)`: a set-semantics insert. -/
def RGraph.addT (g : RGraph) (t : Triple) : RGraph :=
  if t ∈ g then g else g ++ [t]

/-- `graph.remove((s, p, None))`. -/
def RGraph.removeSP (g : RGraph) (s p : RNode) : RGraph :=
  g.filter (fun t => ¬ (t.1 = s ∧ t.2.1 = p))

/-- The objects of all triples with the given subject and predicate, in
graph order. -/
def RGraph.objectsOf (g : RGraph) (s p : RNode) : List RNode :=
  (g.filter (fun t => t.1 = s ∧ t.2.1 = p)).map (fun t => t.2.2)

/-- `existing_data.get(pred)` where `existing_data` is the dict built by
iterating `graph.triples((uri, None, None))` — the last object wins. -/
def RGraph.lookupLast (g : RGraph) (s p : RNode) : Option RNode :=
  (g.objectsOf s p).getLast?

/-- Python `str()` of a node: a literal's or URI's string form.  The numeric
case never feeds the string comparisons in this function. -/
def nodeStr : RNode → String
  | .uri s => s
  | .lit s => s
  | .litQ q => toString q.num ++ "/" ++ toString q.den

/-- `SEC.<name>`: attribute access on `Namespace("file://security#")`. -/
def secNS (name : String) : RNode := .uri ("file://security#" ++ name)

/-- `RDF.type`. -/
def rdfType : RNode :=
  .uri "http://www.w3.org/1999/02/22-rdf-syntax-ns#type"

/-- The `severity_order` dict (lines 217-223) as a total rank, with
`.get(s, 0)` folded in. -/
def severityOrder (s : String) : Nat :=
  if s = "Critical" then 4
  else if s = "High" then 3
  else if s = "Medium" then 2
  else if s = "Low" then 1
  else 0

/-! `to_ontology_triples` is embedded as one stage per comment block of the
Python method.  Every stage receives `g0`, the graph as it stood on entry
(from which the Python builds `existing_data` before mutating anything),
and `g`, the accumulated graph. -/

/-- "Update severity if not set or if new severity is more critical"
(lines 216-229). -/
def updateSeverity (issue : SecurityIssue) (g0 : RGraph) (vuln : RNode)
    (g : RGraph) : RGraph :=
  -- existing_severity = str(existing_data.get(SEC.severity, "Unknown"))
  if severityOrder issue.severity >
      severityOrder
        (match g0.lookupLast vuln (secNS "severity") with
         | some o => nodeStr o
         | none => "Unknown") then
    (g.removeSP vuln (secNS "severity")).addT
      (vuln, secNS "severity", .lit issue.severity)
  else g

/-- "Update source if we have a new one" (lines 231-238): absent — add;
present but not mentioning this source as a substring — append to the
comma-separated list. -/
def updateSource (issue : SecurityIssue) (g0 : RGraph) (vuln : RNode)
    (g : RGraph) : RGraph :=
  match g0.lookupLast vuln (secNS "source") with
  | none => g.addT (vuln, secNS "source", .lit issue.source)
  | some o =>
    if strContains (nodeStr o) issue.source then g
    else
      (g.removeSP vuln (secNS "source")).addT
        (vuln, secNS "source", .lit (nodeStr o ++ ", " ++ issue.source))

/-- "Update fixed version if we have one and it's different"
(lines 240-246).  The falsy empty string counts as no fixed version. -/
def updateFixedVersion (issue : SecurityIssue) (g0 : RGraph) (vuln : RNode)
    (g : RGraph) : RGraph :=
  match issue.fixed_version with
  | none => g
  | some fv =>
    if fv = "" then g
    else
      match g0.lookupLast vuln (secNS "fixedVersion") with
      | none =>
        (g.removeSP vuln (secNS "fixedVersion")).addT
          (vuln, secNS "fixedVersion", .lit fv)
      | some o =>
        if nodeStr o = fv then g
        else
          (g.removeSP vuln (secNS "fixedVersion")).addT
            (vuln, secNS "fixedVersion", .lit fv)

/-- "Update CVSS score if higher than existing" (lines 248-252).
`float(existing_data.get(SEC.cvssScore, 0.0))` is modelled by reading a
numeric literal and treating anything else as `0` (a non-numeric stored
score would make `float()` raise; this function only ever stores numeric
scores). -/
def updateCvss (issue : SecurityIssue) (g0 : RGraph) (vuln : RNode)
    (g : RGraph) : RGraph :=
  match issue.cvss_score with
  | none => g
  | some c =>
    -- existing_cvss = float(existing_data.get(SEC.cvssScore, 0.0))
    if c > (match g0.lookupLast vuln (secNS "cvssScore") with
            | some (.litQ q) => q
            | _ => (0 : ℚ)) then
      (g.removeSP vuln (secNS "cvssScore")).addT
        (vuln, secNS "cvssScore", .litQ c)
    else g

/-- "Update mitigation status if changed" (lines 254-266).  The falsy empty
string counts as no status. -/
def updateMitigation (issue : SecurityIssue) (g0 : RGraph) (vuln : RNode)
    (g : RGraph) : RGraph :=
  match issue.mitigation_status with
  | none => g
  | some m =>
    if m = "" then g
    else
      match g0.lookupLast vuln (secNS "mitigationStatus") with
      | none =>
        (g.removeSP vuln (secNS "mitigationStatus")).addT
          (vuln, secNS "mitigationStatus", .lit m)
      | some o =>
        if nodeStr o = m then g
        else
          (g.removeSP vuln (secNS "mitigationStatus")).addT
            (vuln, secNS "mitigationStatus", .lit m)

/-- `SecurityIssue.to_ontology_triples(graph, package)` (lines 199-267),
returning the updated graph. -/
def SecurityIssue.to_ontology_triples (issue : SecurityIssue) (g : RGraph)
    (package : String) : RGraph :=
  let vuln : RNode := .uri ("file://security#" ++ issue.cve_id)
  -- Always ensure basic type and package info
  let g1 := g.addT (vuln, rdfType, secNS "Vulnerability")
  let g2 := g1.addT (vuln, secNS "affectsPackage", .lit package)
  let g3 := updateSeverity issue g vuln g2
  let g4 := updateSource issue g vuln g3
  let g5 := updateFixedVersion issue g vuln g4
  let g6 := updateCvss issue g vuln g5
  updateMitigation issue g vuln g6

/-! ## Concrete fixtures

Closed instances used to instantiate the theorems below on concrete
inputs. -/

/-- A cipher satisfying the Fernet contract: injective with a computable
decrypt, and never producing the empty string. -/
def demoCipher : FernetCipher :=
  { enc := fun s => String.mk ('c' :: s.data)
    dec := fun s =>
      match s.data with
      | 'c' :: rest => some (String.mk rest)
      | _ => none }

/-- A `StateManager` with an encryption key configured. -/
def smDemo : StateManager := { fernet := some demoCipher }

/-- A `StateManager` constructed with no `STATE_ENCRYPTION_KEY`. -/
def smNoKey : StateManager := { fernet := none }

/-- A `ConversationData` with no state manager and no checkpoint. -/
def demoConv : ConversationData :=
  { conversation_id := "conv-1"
    current_state := .INITIALIZED
    last_message_id := some "msg-1"
    active_query := some "q"
    last_response := none
    conversation_references := [("ref1", "v1")]
    last_activity := "2024-03-20T12:00:00"
    state_history := []
    checkpoint_data := none
    checkpoint_timestamp := none
    error_count := 0
    state_manager := none }

/-- A `ConversationData` wired to `smDemo`. -/
def demoConvSM : ConversationData :=
  { demoConv with
    conversation_id := "conv-2"
    active_query := some "select 1"
    last_response := some ""
    state_manager := some smDemo }

/-- An issue whose severity has rank `0`, used against the empty graph. -/
def demoUnknownIssue : SecurityIssue :=
  { cve_id := "CVE-2024-0001"
    description := "demo"
    severity := "Unknown"
    affected_versions := ">=0"
    fixed_version := none
    source := "safety"
    cvss_score := none
    mitigation_status := none }

/-- An issue with a ranked severity, for the amended severity claim. -/
def demoHighIssue : SecurityIssue :=
  { demoUnknownIssue with cve_id := "CVE-2024-0002", severity := "High" }

/-- A one-triple graph recording severity `Low` for `demoHighIssue`. -/
def demoSevGraph : RGraph :=
  [(.uri "file://security#CVE-2024-0002", secNS "severity", .lit "Low")]

/-! ## Helper lemmas -/

theorem stateOfValue_stateValue (s : ConversationState) :
    stateOfValue (stateValue s) = some s := by
  cases s <;> rfl

theorem takeWhile_replicate_cons (marker stop : Char) (n : Nat) (cs : List Char)
    (h : (stop == marker) = false) :
    (List.replicate n marker ++ stop :: cs).takeWhile (fun c => c == marker)
      = List.replicate n marker := by
  induction n with
  | zero => simp [List.takeWhile, h]
  | succ k ih =>
    simp only [List.replicate_succ, List.cons_append, List.takeWhile]
    simp [ih]

theorem dropWhile_replicate_cons (marker stop : Char) (n : Nat) (cs : List Char)
    (h : (stop == marker) = false) :
    (List.replicate n marker ++ stop :: cs).dropWhile (fun c => c == marker)
      = stop :: cs := by
  induction n with
  | zero => simp [List.dropWhile, h]
  | succ k ih =>
    simp only [List.replicate_succ, List.cons_append, List.dropWhile]
    simp [ih]

theorem decStrC_encStrC (s : String) (tail : List Char) :
    decStrC (encStrC s ++ tail) = some (s, tail) := by
  have hne : ((':' : Char) == 'u') = false := by decide
  have hassoc : encStrC s ++ tail
      = List.replicate s.length 'u' ++ ':' :: (s.data ++ tail) := by
    simp [encStrC]
  rw [decStrC, hassoc,
    takeWhile_replicate_cons 'u' ':' s.length (s.data ++ tail) hne,
    dropWhile_replicate_cons 'u' ':' s.length (s.data ++ tail) hne]
  have hlen : s.length = s.data.length := rfl
  simp only [List.length_replicate]
  rw [hlen, List.take_left, List.drop_left]
  have hle : s.data.length ≤ (s.data ++ tail).length := by
    simp [List.length_append]
  rw [if_pos hle]

theorem decPairsC_encPairsC (d : List (String × String)) (tail : List Char) :
    decPairsC d.length (encPairsC d ++ tail) = some (d, tail) := by
  induction d with
  | nil => simp [decPairsC, encPairsC]
  | cons kv rest ih =>
    obtain ⟨k, v⟩ := kv
    simp only [encPairsC, List.length_cons, decPairsC, List.append_assoc,
      decStrC_encStrC, ih]

theorem jsonLoadsValue_jsonDumpsValue (v : WireVal) :
    jsonLoadsValue (jsonDumpsValue v) = some v := by
  cases v with
  | wstr s =>
    show jsonLoadsValue (String.mk ('S' :: encStrC s)) = _
    have h : decStrC (encStrC s ++ []) = some (s, []) := decStrC_encStrC s []
    simp only [List.append_nil] at h
    simp [jsonLoadsValue, h]
  | wdict d =>
    show jsonLoadsValue
      (String.mk ('D' :: (List.replicate d.length 'e' ++ ';' :: encPairsC d))) = _
    have hne : ((';' : Char) == 'e') = false := by decide
    have h : decPairsC d.length (encPairsC d ++ []) = some (d, []) :=
      decPairsC_encPairsC d []
    simp only [List.append_nil] at h
    simp [jsonLoadsValue,
      takeWhile_replicate_cons 'e' ';' d.length (encPairsC d) hne,
      dropWhile_replicate_cons 'e' ';' d.length (encPairsC d) hne,
      List.length_replicate, h]

theorem jsonDumpsValue_ne_empty (v : WireVal) : jsonDumpsValue v ≠ "" := by
  cases v <;> simp [jsonDumpsValue, String.ext_iff]

/-- Bridge between `_before_event`'s check and the transition lookup: a
trigger outside `get_triggers(s)` has no matching table entry. -/
theorem find?_eq_none_of_not_mem_getTriggers (trig : Trigger)
    (s : ConversationState) (h : trig ∉ getTriggers s) :
    machineTransitions.find?
      (fun e => e.1 = trig ∧ e.2.1.matches s) = none := by
  cases trig <;> cases s <;> revert h <;> decide

theorem objectsOf_append (l1 l2 : RGraph) (s p : RNode) :
    RGraph.objectsOf (l1 ++ l2) s p =
      l1.objectsOf s p ++ l2.objectsOf s p := by
  simp [RGraph.objectsOf, List.filter_append]

theorem objectsOf_addT_ne_pred (g : RGraph) (t : Triple) (s p : RNode)
    (h : t.2.1 ≠ p) : (g.addT t).objectsOf s p = g.objectsOf s p := by
  unfold RGraph.addT
  split
  · rfl
  · rw [objectsOf_append]
    simp [RGraph.objectsOf, h]

theorem objectsOf_removeSP (g : RGraph) (s' p' s p : RNode) :
    (g.removeSP s' p').objectsOf s p =
      if s = s' ∧ p = p' then [] else g.objectsOf s p := by
  unfold RGraph.removeSP RGraph.objectsOf
  rw [List.filter_filter]
  split
  · rename_i hsame
    obtain ⟨hs, hp⟩ := hsame
    subst hs; subst hp
    have hfalse : ∀ t : Triple,
        (decide (t.1 = s ∧ t.2.1 = p) && decide ¬(t.1 = s ∧ t.2.1 = p))
          = false := by
      intro t
      by_cases ht : t.1 = s ∧ t.2.1 = p <;> simp [ht]
    simp [hfalse]
  · rename_i hdiff
    have hsame2 : ∀ t : Triple, t ∈ g →
        (decide (t.1 = s ∧ t.2.1 = p) && decide ¬(t.1 = s' ∧ t.2.1 = p'))
          = decide (t.1 = s ∧ t.2.1 = p) := by
      intro t _
      by_cases ht : t.1 = s ∧ t.2.1 = p
      · simp [ht]
        exact not_and_or.mp hdiff
      · simp [ht]
    rw [List.filter_congr hsame2]

theorem mem_removeSP_self (g : RGraph) (s p o : RNode) :
    (s, p, o) ∉ g.removeSP s p := by
  simp [RGraph.removeSP, List.mem_filter]

theorem objectsOf_addT_match (g : RGraph) (s p o : RNode)
    (h : (s, p, o) ∉ g) :
    (g.addT (s, p, o)).objectsOf s p = g.objectsOf s p ++ [o] := by
  unfold RGraph.addT
  rw [if_neg h, objectsOf_append]
  simp [RGraph.objectsOf]

theorem objectsOf_updateSource (issue : SecurityIssue) (g0 : RGraph)
    (vuln : RNode) (g : RGraph) (s p : RNode) (hp : p ≠ secNS "source") :
    (updateSource issue g0 vuln g).objectsOf s p = g.objectsOf s p := by
  unfold updateSource
  split
  · exact objectsOf_addT_ne_pred _ _ _ _ (Ne.symm hp)
  · split
    · rfl
    · rw [objectsOf_addT_ne_pred _ _ _ _ (Ne.symm hp),
        objectsOf_removeSP, if_neg (fun h => hp h.2)]

theorem objectsOf_updateFixedVersion (issue : SecurityIssue) (g0 : RGraph)
    (vuln : RNode) (g : RGraph) (s p : RNode)
    (hp : p ≠ secNS "fixedVersion") :
    (updateFixedVersion issue g0 vuln g).objectsOf s p = g.objectsOf s p := by
  unfold updateFixedVersion
  split
  · rfl
  · split
    · rfl
    · split
      · rw [objectsOf_addT_ne_pred _ _ _ _ (Ne.symm hp),
          objectsOf_removeSP, if_neg (fun h => hp h.2)]
      · split
        · rfl
        · rw [objectsOf_addT_ne_pred _ _ _ _ (Ne.symm hp),
            objectsOf_removeSP, if_neg (fun h => hp h.2)]

theorem objectsOf_updateCvss (issue : SecurityIssue) (g0 : RGraph)
    (vuln : RNode) (g : RGraph) (s p : RNode) (hp : p ≠ secNS "cvssScore") :
    (updateCvss issue g0 vuln g).objectsOf s p = g.objectsOf s p := by
  unfold updateCvss
  split
  · rfl
  · split
    · rw [objectsOf_addT_ne_pred _ _ _ _ (Ne.symm hp),
        objectsOf_removeSP, if_neg (fun h => hp h.2)]
    · rfl

theorem objectsOf_updateMitigation (issue : SecurityIssue) (g0 : RGraph)
    (vuln : RNode) (g : RGraph) (s p : RNode)
    (hp : p ≠ secNS "mitigationStatus") :
    (updateMitigation issue g0 vuln g).objectsOf s p = g.objectsOf s p := by
  unfold updateMitigation
  split
  · rfl
  · split
    · rfl
    · split
      · rw [objectsOf_addT_ne_pred _ _ _ _ (Ne.symm hp),
          objectsOf_removeSP, if_neg (fun h => hp h.2)]
      · split
        · rfl
        · rw [objectsOf_addT_ne_pred _ _ _ _ (Ne.symm hp),
            objectsOf_removeSP, if_neg (fun h => hp h.2)]

theorem objectsOf_updateSeverity (issue : SecurityIssue) (g0 : RGraph)
    (vuln : RNode) (g : RGraph) (s0 : String)
    (h0 : g0.objectsOf vuln (secNS "severity") = [.lit s0])
    (hg : g.objectsOf vuln (secNS "severity") = [.lit s0]) :
    (updateSeverity issue g0 vuln g).objectsOf vuln (secNS "severity") =
      [.lit (if severityOrder issue.severity > severityOrder s0
             then issue.severity else s0)] := by
  unfold updateSeverity
  have hlook : g0.lookupLast vuln (secNS "severity") = some (.lit s0) := by
    simp [RGraph.lookupLast, h0]
  rw [hlook]
  by_cases hcmp : severityOrder issue.severity > severityOrder s0
  · rw [if_pos (by simpa [nodeStr] using hcmp), if_pos hcmp,
      objectsOf_addT_match _ _ _ _ (mem_removeSP_self g vuln (secNS "severity") _),
      objectsOf_removeSP, if_pos ⟨rfl, rfl⟩]
    rfl
  · rw [if_neg (by simpa [nodeStr] using hcmp), if_neg hcmp]
    exact hg

/-! ## Claims -/

/-- C2: for every `ConversationData`, calling `create_checkpoint()` and then
`restore_checkpoint()` returns `True`, and after the restore
`current_state`, `conversation_references`, `active_query`, `last_response`,
`error_count`, `last_activity`, `state_history` and `last_message_id` equal
the values they had at the moment of the checkpoint, with `conversation_id`
unchanged throughout. -/
theorem checkpoint_restore_roundtrip (d : ConversationData) (ts : String) :
    ((d.create_checkpoint ts).restore_checkpoint.1 = true) ∧
    ((d.create_checkpoint ts).restore_checkpoint.2.current_state
        = d.current_state) ∧
    ((d.create_checkpoint ts).restore_checkpoint.2.conversation_references
        = d.conversation_references) ∧
    ((d.create_checkpoint ts).restore_checkpoint.2.active_query
        = d.active_query) ∧
    ((d.create_checkpoint ts).restore_checkpoint.2.last_response
        = d.last_response) ∧
    ((d.create_checkpoint ts).restore_checkpoint.2.error_count
        = d.error_count) ∧
    ((d.create_checkpoint ts).restore_checkpoint.2.last_activity
        = d.last_activity) ∧
    ((d.create_checkpoint ts).restore_checkpoint.2.state_history
        = d.state_history) ∧
    ((d.create_checkpoint ts).restore_checkpoint.2.last_message_id
        = d.last_message_id) ∧
    ((d.create_checkpoint ts).conversation_id = d.conversation_id) ∧
    ((d.create_checkpoint ts).restore_checkpoint.2.conversation_id
        = d.conversation_id) := by
  simp [ConversationData.create_checkpoint, ConversationData.restore_checkpoint,
    stateOfValue_stateValue]

/-- C3: the state set of the `ConversationData` state machine is exactly the
nine states `IDLE`, `AUTHENTICATING`, `QUERYING`, `PROCESSING`,
`RESPONDING`, `ERROR`, `COMPLETED`, `INITIALIZED`, `AUTHENTICATED`, and a
`ConversationData` starts in `INITIALIZED` unless another state is passed at
construction. -/
theorem conversation_states_and_initial (s : ConversationState) :
    s ∈ conversationStates ∧
    conversationStates.length = 9 ∧
    conversationStates.Nodup ∧
    (∀ id now, id ≠ "" →
      (mkConversationData id now).map (fun d => d.current_state)
        = some .INITIALIZED) ∧
    (∀ id now st, id ≠ "" →
      (mkConversationData id now st).map (fun d => d.current_state)
        = some st) := by
  refine ⟨by cases s <;> simp [conversationStates], by decide, by decide,
    ?_, ?_⟩
  · intro id now h
    simp [mkConversationData, h]
  · intro id now st h
    simp [mkConversationData, h]

/-- Witness for C3 at a concrete construction. -/
theorem conversation_states_and_initial_witness :
    (mkConversationData "conv-9" "2024-01-01T00:00:00").map
        (fun d => d.current_state) = some ConversationState.INITIALIZED :=
  (conversation_states_and_initial .IDLE).2.2.2.1
    "conv-9" "2024-01-01T00:00:00" (by decide)

/-- C4: with a valid Fernet key configured at construction,
`decrypt(encrypt(s)) = s` for every string `s`; with no key configured,
`encrypt` and `decrypt` are the identity on strings. -/
theorem encrypt_decrypt_roundtrip (sm : StateManager) (s : String) :
    (∀ f, sm.fernet = some f → (∀ t, f.dec (f.enc t) = some t) →
      sm.decrypt (sm.encrypt s) = s) ∧
    (sm.fernet = none → sm.encrypt s = s ∧ sm.decrypt s = s) := by
  constructor
  · intro f hf hrt
    simp [StateManager.encrypt, StateManager.decrypt, hf, hrt]
  · intro hf
    simp [StateManager.encrypt, StateManager.decrypt, hf]

/-- Witness for C4: a keyed manager round-trips, a keyless one passes
through. -/
theorem encrypt_decrypt_roundtrip_witness :
    (smDemo.decrypt (smDemo.encrypt "select 1") = "select 1") ∧
    (smNoKey.encrypt "select 1" = "select 1" ∧
     smNoKey.decrypt "select 1" = "select 1") :=
  ⟨(encrypt_decrypt_roundtrip smDemo "select 1").1 demoCipher rfl
      (fun t => by cases t; rfl),
   (encrypt_decrypt_roundtrip smNoKey "select 1").2 rfl⟩

/-- C6: `restore_checkpoint()` returns `False` when `checkpoint_data` is
`None` (or the falsy empty dict, which the model folds into `none`), and in
that case every field of the object is left unchanged. -/
theorem restore_checkpoint_no_data (d : ConversationData)
    (h : d.checkpoint_data = none) :
    d.restore_checkpoint = (false, d) := by
  simp [ConversationData.restore_checkpoint, h]

/-- Witness for C6 on a concrete object without a checkpoint. -/
theorem restore_checkpoint_no_data_witness :
    demoConv.restore_checkpoint = (false, demoConv) :=
  restore_checkpoint_no_data demoConv rfl

/-- C5 counterexample: it is not the case that every `subprocess.run`
invocation in `clpm.py` passes a timeout between 5 and 300 seconds — the
`safety --version` availability check is an invocation in the table and
passes no timeout at all (as do the `pip-audit --version` check and the
install in `SafetyScanner.add_package`). -/
theorem clpm_timeouts_counterexample :
    ({ site := "SafetyScanner.is_available: safety --version",
       timeout := none } : SubprocessCall) ∈ clpmSubprocessCalls ∧
    ¬ (∀ c ∈ clpmSubprocessCalls,
        (match c.timeout with
         | none => False
         | some t => 5 ≤ t ∧ t ≤ 300)) := by
  constructor
  · decide
  · intro h
    exact h { site := "SafetyScanner.is_available: safety --version",
              timeout := none } (by decide)

/-- C5 as amended: of the seven `subprocess.run` invocations in `clpm.py`,
the two scanner scans pass the fixed timeout 30 and the two installs in
`PackageManager.add_package` pass the fixed timeout 300 — every timeout
passed lies between 5 and 300 seconds — while the two scanner availability
checks and the install in `SafetyScanner.add_package` pass no timeout. -/
theorem clpm_timeouts_amended :
    clpmSubprocessCalls.map (fun c => c.timeout) =
      [none, some 30, none, none, some 30, some 300, some 300] ∧
    (∀ c ∈ clpmSubprocessCalls, ∀ t, c.timeout = some t →
      5 ≤ t ∧ t ≤ 300) := by
  constructor
  · rfl
  · intro c hc t ht
    fin_cases hc <;> simp_all [PACKAGE_INSTALL_TIMEOUT] <;> omega

/-- Witness for C5 (amended) at the safety scan invocation. -/
theorem clpm_timeouts_amended_witness : 5 ≤ 30 ∧ 30 ≤ 300 :=
  clpm_timeouts_amended.2
    { site := "SafetyScanner.scan_package: safety scan", timeout := some 30 }
    (by decide) 30 rfl

/-- C8 counterexample: dispatching `auth_complete` from `INITIALIZED` (not a
permitted trigger there) does not yield the claimed outcome — a raised
`MachineError` with `error_count` incremented by one.  The library raises in
`_is_valid_source` before the `prepare_event` callback `_before_event` can
run, so `error_count` stays `0` while the claim demands `1`. -/
theorem dispatch_invalid_trigger_counterexample :
    demoConv.dispatch .auth_complete "2024-03-20T12:01:00" ≠
      .machineError { demoConv with
        error_count := demoConv.error_count + 1 } := by
  have h : demoConv.dispatch .auth_complete "2024-03-20T12:01:00" =
      .machineError demoConv := rfl
  rw [h]
  intro hEq
  have h2 : demoConv = { demoConv with
      error_count := demoConv.error_count + 1 } := by
    injection hEq
  simpa [demoConv] using congrArg ConversationData.error_count h2

/-- C8 as amended: dispatching a trigger that is not permitted from the
current state raises `MachineError` and leaves `error_count`,
`current_state` and every other field unchanged — the library's validity
check raises before the repo's `prepare_event` callback (`_before_event`)
runs, so the increment in `_before_event` never happens. -/
theorem dispatch_invalid_trigger (d : ConversationData) (trig : Trigger)
    (now : String) (h : trig ∉ getTriggers d.current_state) :
    d.dispatch trig now = .machineError d := by
  unfold ConversationData.dispatch
  rw [find?_eq_none_of_not_mem_getTriggers trig d.current_state h]

/-- Witness for C8 (amended): `auth_complete` is not permitted from
`INITIALIZED`. -/
theorem dispatch_invalid_trigger_witness :
    demoConv.dispatch .auth_complete "2024-03-20T12:01:00" =
      .machineError demoConv :=
  dispatch_invalid_trigger demoConv .auth_complete "2024-03-20T12:01:00"
    (by decide)

/-- C7: neither scanner propagates an exception on subprocess timeout or on
unparseable scanner JSON — `SafetyScanner.scan_package` and
`PipAuditScanner.scan_package` both return the empty list of
`SecurityIssue` in those cases. -/
theorem scanners_swallow_failures
    (sparse : String → Option SafetyData)
    (pparse : String → Option PipAuditData)
    (package stdout : String)
    (hs : ∀ l, sparse l = none) (hp : ∀ l, pparse l = none) :
    safetyScanPackage sparse .timedOut = [] ∧
    pipAuditScanPackage pparse package .timedOut = [] ∧
    safetyScanPackage sparse (.completed stdout) = [] ∧
    pipAuditScanPackage pparse package (.completed stdout) = [] := by
  refine ⟨rfl, rfl, ?_, ?_⟩
  · unfold safetyScanPackage
    split
    · rfl
    · split
      · rfl
      · split
        · rfl
        · rw [hs]
  · unfold pipAuditScanPackage
    split
    · rfl
    · rw [hp]
      split <;> rfl

/-- Witness for C7 with an unparseable stdout. -/
theorem scanners_swallow_failures_witness :
    safetyScanPackage (fun _ => none) .timedOut = [] ∧
    pipAuditScanPackage (fun _ => none) "requests" .timedOut = [] ∧
    safetyScanPackage (fun _ => none) (.completed "\x7bnot json") = [] ∧
    pipAuditScanPackage (fun _ => none) "requests"
      (.completed "\x7bnot json") = [] :=
  scanners_swallow_failures (fun _ => none) (fun _ => none)
    "requests" "\x7bnot json" (fun _ => rfl) (fun _ => rfl)

/-- C10: with no `StateManager` attached, `to_dict` serializes
`conversation_references` as an empty dict; `from_dict` without a
`StateManager` sets `conversation_references` to an empty dict; hence the
round trip of a `ConversationData` with non-empty references yields an
object whose references are empty. -/
theorem references_dropped_without_manager (d : ConversationData)
    (now : String) (hsm : d.state_manager = none)
    (hid : d.conversation_id ≠ "")
    (_hrefs : d.conversation_references ≠ []) :
    d.to_dict.conversation_references = .vdict [] ∧
    (ConversationData.from_dict d.to_dict none now).map
        (fun d' => d'.conversation_references) = some [] ∧
    (∀ data now2 d', ConversationData.from_dict data none now2 = some d' →
      d'.conversation_references = []) := by
  refine ⟨?_, ?_, ?_⟩
  · simp [ConversationData.to_dict, hsm]
  · simp [ConversationData.to_dict, ConversationData.from_dict, hsm,
      stateOfValue_stateValue, mkConversationData, hid]
  · intro data now2 d' h
    unfold ConversationData.from_dict at h
    split at h
    · exact Option.noConfusion h
    · split at h
      · exact Option.noConfusion h
      · injection h with h
        subst h
        rfl

/-- Witness for C10 on a concrete object with one reference. -/
theorem references_dropped_without_manager_witness :
    demoConv.to_dict.conversation_references = PyVal.vdict [] ∧
    (ConversationData.from_dict demoConv.to_dict none
        "2024-01-01T00:00:00").map (fun d' => d'.conversation_references)
      = some [] ∧
    (∀ data now2 d', ConversationData.from_dict data none now2 = some d' →
      d'.conversation_references = []) :=
  references_dropped_without_manager demoConv "2024-01-01T00:00:00"
    rfl (by decide) (by decide)

/-- C9 counterexample: the claim asserts that after `to_ontology_triples`
exactly one severity triple remains for the vulnerability URI, holding the
maximum of the previously stored severity and the issue's severity.  On the
empty graph with an issue of severity `"Unknown"` (rank 0), the comparison
`severity_order.get(self.severity, 0) > severity_order.get("Unknown", 0)`
is false and no severity triple is ever added: zero severity triples
remain, not one. -/
theorem severity_claim_counterexample :
    (demoUnknownIssue.to_ontology_triples [] "requests").objectsOf
        (.uri "file://security#CVE-2024-0001") (secNS "severity") = [] := by
  decide

/-- C9 as amended: for every graph holding exactly one severity triple (a
string literal) for the issue's vulnerability URI, `to_ontology_triples`
leaves exactly one severity triple for that URI, holding the maximum of the
previously stored severity and the issue's severity under the rank order
Critical > High > Medium > Low > Unknown, the stored value being kept on
ties and between unranked severities. -/
theorem severity_never_lowered (g : RGraph) (package : String)
    (issue : SecurityIssue) (s0 : String)
    (h : g.objectsOf (.uri ("file://security#" ++ issue.cve_id))
          (secNS "severity") = [.lit s0]) :
    (issue.to_ontology_triples g package).objectsOf
        (.uri ("file://security#" ++ issue.cve_id)) (secNS "severity")
      = [.lit (if severityOrder issue.severity > severityOrder s0
               then issue.severity else s0)] := by
  show (updateMitigation issue g _
      (updateCvss issue g _
        (updateFixedVersion issue g _
          (updateSource issue g _
            (updateSeverity issue g _
              ((g.addT (_, rdfType, secNS "Vulnerability")).addT
                (_, secNS "affectsPackage", .lit package))))))).objectsOf
      (.uri ("file://security#" ++ issue.cve_id)) (secNS "severity") = _
  rw [objectsOf_updateMitigation _ _ _ _ _ _ (by decide),
    objectsOf_updateCvss _ _ _ _ _ _ (by decide),
    objectsOf_updateFixedVersion _ _ _ _ _ _ (by decide),
    objectsOf_updateSource _ _ _ _ _ _ (by decide)]
  apply objectsOf_updateSeverity issue g _ _ s0 h
  rw [objectsOf_addT_ne_pred _ _ _ _
      (show secNS "affectsPackage" ≠ secNS "severity" by decide),
    objectsOf_addT_ne_pred _ _ _ _
      (show rdfType ≠ secNS "severity" by decide)]
  exact h

/-- Witness for C9 (amended): recording a `High` issue over a stored `Low`
severity leaves exactly the `High` severity triple. -/
theorem severity_never_lowered_witness :
    (demoHighIssue.to_ontology_triples demoSevGraph "requests").objectsOf
        (.uri ("file://security#" ++ demoHighIssue.cve_id))
        (secNS "severity")
      = [.lit (if severityOrder demoHighIssue.severity > severityOrder "Low"
               then demoHighIssue.severity else "Low")] :=
  severity_never_lowered demoSevGraph "requests" demoHighIssue "Low"
    (by decide)

/-- The encrypt/decrypt loop bodies of `to_dict`/`from_dict` are mutually
inverse on string-valued sensitive fields when the cipher round-trips and
never produces the empty string. -/
theorem decryptStrField_encryptField (sm : StateManager) (f : FernetCipher)
    (hf : sm.fernet = some f) (hrt : ∀ s, f.dec (f.enc s) = some s)
    (hne : ∀ s, f.enc s ≠ "") (o : Option String) :
    decryptStrField sm (encryptField sm (o.map .wstr)) = o := by
  cases o with
  | none => rfl
  | some s =>
    simp [encryptField, decryptStrField, StateManager.encrypt,
      StateManager.decrypt, hf, hrt, hne, jsonLoadsValue_jsonDumpsValue]

/-- Same for the dict-valued `conversation_references` field. -/
theorem decryptDictField_encryptField (sm : StateManager) (f : FernetCipher)
    (hf : sm.fernet = some f) (hrt : ∀ s, f.dec (f.enc s) = some s)
    (hne : ∀ s, f.enc s ≠ "") (refs : List (String × String)) :
    decryptDictField sm (encryptField sm (some (.wdict refs))) = refs := by
  simp [encryptField, decryptDictField, StateManager.encrypt,
    StateManager.decrypt, hf, hrt, hne, jsonLoadsValue_jsonDumpsValue]

/-- C1: for every `ConversationData` with a `StateManager` attached whose
Fernet key is configured and whose encrypt/decrypt calls do not raise
(round-tripping, never-empty cipher), `from_dict(to_dict(), sm)` with the
same manager restores `conversation_id`, `current_state`, `last_activity`,
`error_count`, `state_history`, `checkpoint_timestamp`, `active_query`,
`last_response`, `conversation_references` and `last_message_id`. -/
theorem serialization_roundtrip_with_manager (d : ConversationData)
    (sm : StateManager) (f : FernetCipher) (now : String)
    (hid : d.conversation_id ≠ "") (hsm : d.state_manager = some sm)
    (hf : sm.fernet = some f) (hrt : ∀ s, f.dec (f.enc s) = some s)
    (hne : ∀ s, f.enc s ≠ "") :
    (ConversationData.from_dict d.to_dict (some sm) now).map
        (fun d' =>
          (d'.conversation_id, d'.current_state, d'.last_activity,
           d'.error_count, d'.state_history, d'.checkpoint_timestamp,
           d'.active_query, d'.last_response, d'.conversation_references,
           d'.last_message_id))
      = some (d.conversation_id, d.current_state, d.last_activity,
          d.error_count, d.state_history, d.checkpoint_timestamp,
          d.active_query, d.last_response, d.conversation_references,
          d.last_message_id) := by
  simp [ConversationData.to_dict, ConversationData.from_dict, hsm,
    stateOfValue_stateValue, mkConversationData, hid,
    decryptStrField_encryptField sm f hf hrt hne,
    decryptDictField_encryptField sm f hf hrt hne]

/-- Witness for C1 on a concrete conversation with the demo cipher. -/
theorem serialization_roundtrip_with_manager_witness :
    (ConversationData.from_dict demoConvSM.to_dict (some smDemo)
        "2024-01-01T00:00:00").map
        (fun d' =>
          (d'.conversation_id, d'.current_state, d'.last_activity,
           d'.error_count, d'.state_history, d'.checkpoint_timestamp,
           d'.active_query, d'.last_response, d'.conversation_references,
           d'.last_message_id))
      = some (demoConvSM.conversation_id, demoConvSM.current_state,
          demoConvSM.last_activity, demoConvSM.error_count,
          demoConvSM.state_history, demoConvSM.checkpoint_timestamp,
          demoConvSM.active_query, demoConvSM.last_response,
          demoConvSM.conversation_references, demoConvSM.last_message_id) :=
  serialization_roundtrip_with_manager demoConvSM smDemo demoCipher
    "2024-01-01T00:00:00" (by decide) rfl rfl
    (fun s => by cases s; rfl)
    (fun s => by cases s; simp [demoCipher, String.ext_iff])

end ChatbotLLM
